import Mathlib

/-!
# Bolt v5 connection state machine — shallow embedding

This file embeds the client-side Bolt v5 connection state machine of
`neo4j/internal/bolt/bolt5.go` into Lean 4 and proves properties of it.

The connection object, its gated operations, the response handlers, and the
state transitions are translated directly from `bolt5.go`.  Collaborators that
live outside that file (the stream registry `openstreams`, the message queue,
`isFatalError`, `handleTerminatedContextError`) are modelled from the
specification's description of their interfaces; each such definition carries a
doc comment saying so.

Wire I/O is modelled by an explicit *script*: the list of inbound messages the
server will deliver, consumed one message per `receive`.  Outgoing messages are
accumulated in `queueOut` until `send` flushes them into the trace `sentMsgs`.
Streams, which the Go code handles through pointers, live in an arena
(`arena : List Stream`) and are referenced by index; a stream handle is such an
index.
-/

namespace Bolt5

/-- Connection states, from the `bolt5Ready`/.../`bolt5Unauthorized` constants
of bolt5.go. -/
inductive BState where
  | ready
  | streaming
  | tx
  | streamingTx
  | failed
  | dead
  | unauthorized
deriving DecidableEq, Repr

/-- Default fetch size (`bolt5FetchSize = 1000`). -/
def bolt5FetchSize : Int := 1000

/-- Errors that can be produced or stored by the connection.  `neo4jError`
carries the classification parsed from the server code (`ClientError`,
`TransientError`, ...). -/
inductive Err where
  | neo4jError (classification : String) (code : String)
  | ioError
  | ctxCanceled
  | terminatedContext
  | invalidState
  | invalidTransaction
  | unknownResponse
  | pullInterrupted
  | discardInterrupted
  | invalidStream
  | moreResultsExpected
deriving DecidableEq, Repr

/-- A decoded record (values are opaque; keys are attached by the pull
handler from the stream's keys). -/
structure Rec where
  keys : List String
  vals : List Int
deriving DecidableEq, Repr

/-- The fields of a terminal summary that the embedding tracks
(`extractSummary` in bolt5.go fills agent/major/minor/serverName/tfirst on top
of the success metadata). -/
structure Summary where
  bookmark : String
  agent : String
  major : Nat
  minor : Nat
  serverName : String
  tfirst : Int
deriving DecidableEq, Repr

/-- Decoded SUCCESS metadata as delivered by the hydrator. -/
structure Success where
  fields : List String
  qid : Int
  tfirst : Int
  hasMore : Bool
  bookmark : String
  server : String
  connectionId : String
deriving DecidableEq, Repr

/-- Inbound messages (`SUCCESS`, `RECORD`, `FAILURE`, `IGNORED`); `unknown`
stands for an undecodable/unexpected message routed to `onUnknown`. -/
inductive InMsg where
  | record (vals : List Int)
  | success (s : Success)
  | failure (classification : String) (code : String)
  | ignored
  | unknown
deriving DecidableEq, Repr

/-- Outbound wire messages appended by the connection. -/
inductive WireMsg where
  | hello
  | logon
  | begin
  | commit
  | rollback
  | reset
  | goodbye
  | route
  | run (cypher : String)
  | pullN (n : Int)
  | pullNQid (n : Int) (qid : Int)
  | discardN (n : Int)
  | discardNQid (n : Int) (qid : Int)
deriving DecidableEq, Repr

/-- Whether an outbound PULL/DISCARD carries an explicit qid. -/
def WireMsg.carriesQid : WireMsg → Bool
  | .pullNQid _ _ => true
  | .discardNQid _ _ => true
  | _ => false

/-- Whether an outbound message is a PULL or DISCARD request. -/
def WireMsg.isPullOrDiscard : WireMsg → Bool
  | .pullN _ => true
  | .pullNQid _ _ => true
  | .discardN _ => true
  | .discardNQid _ _ => true
  | _ => false

/-- One result stream (the `stream` struct): server qid, field names, fetch
size, buffered records, paging flags and terminal summary/error. -/
structure Stream where
  qid : Int
  keys : List String
  fetchSize : Int
  buffer : List Rec
  endOfBatch : Bool
  discarding : Bool
  sum : Option Summary
  err : Option Err
  tfirst : Int
deriving DecidableEq, Repr

/-- A fresh stream as created by `run` (only fetchSize set). -/
def Stream.fresh (fetchSize : Int) : Stream :=
  { qid := -1, keys := [], fetchSize := fetchSize, buffer := [],
    endOfBatch := false, discarding := false, sum := none, err := none,
    tfirst := 0 }

/-- Modelled from the spec: the stream registry `openstreams` (not under
src/).  `members` are the handles of live (safe) streams, `curr` the current
one; `streams.reset` empties `members`, making every outstanding handle
unsafe; `attach` adds a stream as current; `remove` deletes it; `pause`
unsets current; `resume` re-marks a stream current.  The stream count `num`
is the length of `members`. -/
structure Registry where
  curr : Option Nat
  members : List Nat
deriving DecidableEq, Repr

def Registry.empty : Registry := { curr := none, members := [] }

def Registry.num (r : Registry) : Nat := r.members.length

def Registry.attach (r : Registry) (sid : Nat) : Registry :=
  { curr := some sid, members := sid :: r.members }

def Registry.remove (r : Registry) (sid : Nat) : Registry :=
  { curr := if r.curr = some sid then none else r.curr,
    members := r.members.erase sid }

def Registry.pause (r : Registry) : Registry := { r with curr := none }

def Registry.resume (r : Registry) (sid : Nat) : Registry :=
  { r with curr := some sid }

/-- Modelled from the spec: `isSafe` succeeds exactly for handles still in the
registry (a reset or removal makes a handle unsafe). -/
def Registry.isSafe (r : Registry) (sid : Nat) : Bool := sid ∈ r.members

/-- Pending response handlers, one per in-flight request, FIFO.  Each
constructor corresponds to one of the `...ResponseHandler` closures of
bolt5.go; pull/discard/run handlers close over the stream they serve. -/
inductive Handler where
  | hello
  | logon
  | begin
  | commit
  | rollback
  | route
  | reset
  | run (sid : Nat)
  | pull (sid : Nat)
  | discard (sid : Nat)
deriving DecidableEq, Repr

/-- Modelled from the spec: the default-database sentinel
(`idb.DefaultDatabase`), an empty string. -/
def defaultDatabase : String := ""

/-- The connection (`bolt5` struct).  Time-valued fields (`birthDate`,
`idleDate`), logging identity and the read-timeout hint are omitted: no claim
mentions them.  `queueOut`/`handlers` model the message queue's outgoing half
and pending-handler queue; `sentMsgs` is the trace of flushed messages. -/
structure Conn where
  state : BState
  txId : Nat
  streams : Registry
  serverName : String
  connId : String
  serverVersion : String
  bookmark : String
  databaseName : String
  err : Option Err
  minor : Nat
  lastQid : Int
  arena : List Stream
  queueOut : List WireMsg
  sentMsgs : List WireMsg
  handlers : List Handler
deriving DecidableEq, Repr

/-- Update the stream at index `sid` in the arena. -/
def listUpd : List Stream → Nat → (Stream → Stream) → List Stream
  | [], _, _ => []
  | s :: t, 0, f => f s :: t
  | s :: t, n + 1, f => s :: listUpd t n f

def Conn.updStream (c : Conn) (sid : Nat) (f : Stream → Stream) : Conn :=
  { c with arena := listUpd c.arena sid f }

def Conn.getStream (c : Conn) (sid : Nat) : Option Stream := c.arena.get? sid

/-- `checkStreams`: when the registry's stream count is zero, Streaming drops
to Ready and StreamingTx to Tx; any other state is kept. -/
def checkStreams (c : Conn) : Conn :=
  if c.streams.num ≤ 0 then
    match c.state with
    | .streamingTx => { c with state := .tx }
    | .streaming => { c with state := .ready }
    | _ => c
  else c

/-- Modelled from the spec (§6.3): a server failure is fatal unless its
classification is `ClientError`; unrecognized classifications are fatal.
Corresponds to `isFatalError`, which is not under src/. -/
def isFatalError : Err → Bool
  | .neo4jError cls _ => cls ≠ "ClientError"
  | _ => true

/-- Modelled from the spec (§5): `handleTerminatedContextError` (not under
src/) recognizes a context-cancellation error, closes the socket and returns
it wrapped as a terminated-context error; for any other error it returns
none. -/
def handleTerminatedContextError : Err → Option Err
  | .ctxCanceled => some .terminatedContext
  | _ => none

/-- `openstreams.detach(nil, err)` as used by `setError`: forward the error to
the current stream and drop it from the registry. -/
def detachCurr (c : Conn) (e : Err) : Conn :=
  match c.streams.curr with
  | none => c
  | some sid =>
      let c := c.updStream sid (fun s => { s with err := some e })
      { c with streams := c.streams.remove sid }

/-- `setError`: sets `err` and moves `state` to Failed, or to Dead when
fatal; the first stored error wins except that a fatal terminated-context
error overwrites it; forwards the error to the current stream if any. -/
def setError (c : Conn) (e : Err) (fatal : Bool) : Conn :=
  let c := if c.err = none then { c with err := some e, state := .failed } else c
  let c :=
    if fatal then
      match handleTerminatedContextError e with
      | some ctxErr => { c with err := some ctxErr, state := .dead }
      | none => { c with state := .dead }
    else c
  if c.streams.curr ≠ none then checkStreams (detachCurr c e) else c

/-- `assertTxHandle`: error when the handles differ; never mutates the
connection. -/
def assertTxHandle (h1 h2 : Nat) : Option Err :=
  if h1 ≠ h2 then some .invalidTransaction else none

/-- `assertState`: forwards the sticky error when set, otherwise errors when
the state is not among the allowed ones; never mutates the connection. -/
def assertState (c : Conn) (allowed : List BState) : Option Err :=
  match c.err with
  | some e => some e
  | none => if c.state ∈ allowed then none else some .invalidState

/-- `normalizeFetchSize`: negative ↦ -1, zero ↦ default 1000, positive ↦
itself. -/
def normalizeFetchSize (fetchSize : Int) : Int :=
  if fetchSize < 0 then -1
  else if fetchSize = 0 then bolt5FetchSize
  else fetchSize

/-- `extractSummary`: the success metadata enriched with server agent,
major/minor, server name and the stream's tfirst. -/
def extractSummary (c : Conn) (s : Success) (st : Stream) : Summary :=
  { bookmark := s.bookmark, agent := c.serverVersion, major := 5,
    minor := c.minor, serverName := c.serverName, tfirst := st.tfirst }

/-- Append a request message together with its response handler (the queue
pairs them; modelled from the spec's queue interface). -/
def appendMsg (c : Conn) (m : WireMsg) (h : Handler) : Conn :=
  { c with queueOut := c.queueOut ++ [m], handlers := c.handlers ++ [h] }

/-- `appendGoodbye` expects no response, so no handler is queued. -/
def appendGoodbye (c : Conn) : Conn :=
  { c with queueOut := c.queueOut ++ [WireMsg.goodbye] }

/-- `queue.pushFront`: re-queue a handler at the head (used by the record
callback of the pull handler). -/
def pushFront (c : Conn) (h : Handler) : Conn :=
  { c with handlers := h :: c.handlers }

/-- `queue.send`: flush all appended messages to the wire in one write.  The
modelled wire never fails on write. -/
def send (c : Conn) : Conn :=
  { c with sentMsgs := c.sentMsgs ++ c.queueOut, queueOut := [] }

/-- Dispatch one decoded inbound message to a (popped) response handler.
Each branch is the corresponding `...ResponseHandler` closure of bolt5.go;
handlers built by `expectedSuccessHandler` share the generic
`onFailure`/`onUnknown`/`onIgnoredNoOp` callbacks.  A record delivered to a
handler without an `onRecord` callback is ignored. -/
def dispatch (c : Conn) (h : Handler) (m : InMsg) : Conn :=
  match h, m with
  -- hello: onHelloSuccess captures connection id and server version
  | .hello, .success s =>
      { c with connId := s.connectionId, serverVersion := s.server }
  | .logon, .success _ => c
  | .begin, .success _ => c
  | .rollback, .success _ => c
  | .route, .success _ => c
  -- commit: onCommitSuccess updates the bookmark when one is present
  | .commit, .success s =>
      if s.bookmark ≠ "" then { c with bookmark := s.bookmark } else c
  -- run: record keys/qid/tfirst, update lastQid for qid ≥ 0, attach as current
  | .run sid, .success s =>
      let c := c.updStream sid (fun st =>
        { st with keys := s.fields, qid := s.qid, tfirst := s.tfirst })
      let c := if s.qid > -1 then { c with lastQid := s.qid } else c
      { c with streams := c.streams.attach sid }
  -- pull: record/ignored/success/failure/unknown, from pullResponseHandler
  | .pull sid, .record vals =>
      match c.getStream sid with
      | none => pushFront c (.pull sid)
      | some st =>
          let c :=
            if st.discarding then c.updStream sid (fun s => { s with buffer := [] })
            else c.updStream sid (fun s =>
              { s with buffer := s.buffer ++ [{ keys := st.keys, vals := vals }] })
          pushFront c (.pull sid)
  | .pull sid, .ignored =>
      let c := c.updStream sid (fun s => { s with err := some .pullInterrupted })
      let c := { c with streams := c.streams.remove sid }
      checkStreams c
  | .pull sid, .success s =>
      match c.getStream sid with
      | none => c
      | some st =>
          let c :=
            if st.discarding then c.updStream sid (fun s => { s with buffer := [] })
            else c
          if s.hasMore then c.updStream sid (fun s => { s with endOfBatch := true })
          else
            let summary := extractSummary c s st
            let c :=
              if summary.bookmark ≠ "" then { c with bookmark := summary.bookmark }
              else c
            let c := c.updStream sid (fun s => { s with sum := some summary })
            let c := { c with streams := c.streams.remove sid }
            checkStreams c
  | .pull sid, .failure cls code =>
      let c := c.updStream sid (fun s => { s with err := some (.neo4jError cls code) })
      setError c (.neo4jError cls code) (isFatalError (.neo4jError cls code))
  -- discard: like pull but with no record handling, from discardResponseHandler
  | .discard sid, .ignored =>
      let c := c.updStream sid (fun s => { s with err := some .discardInterrupted })
      let c := { c with streams := c.streams.remove sid }
      checkStreams c
  | .discard sid, .success s =>
      match c.getStream sid with
      | none => c
      | some st =>
          if s.hasMore then c.updStream sid (fun s => { s with endOfBatch := true })
          else
            let summary := extractSummary c s st
            let c :=
              if summary.bookmark ≠ "" then { c with bookmark := summary.bookmark }
              else c
            let c := c.updStream sid (fun s => { s with sum := some summary })
            let c := { c with streams := c.streams.remove sid }
            checkStreams c
  | .discard sid, .failure cls code =>
      let c := c.updStream sid (fun s => { s with err := some (.neo4jError cls code) })
      setError c (.neo4jError cls code) (isFatalError (.neo4jError cls code))
  -- reset: success forces Ready, failure/unknown force Dead
  | .reset, .success _ => { c with state := .ready }
  | .reset, .failure _ _ => { c with state := .dead }
  | .reset, .unknown => { c with state := .dead }
  | .reset, _ => c
  -- generic expectedSuccessHandler fallthroughs
  | _, .failure cls code =>
      setError c (.neo4jError cls code) (isFatalError (.neo4jError cls code))
  | _, .unknown => setError c .unknownResponse true
  | _, .ignored => c
  | _, .record _ => c

/-- Pop the head handler and dispatch one inbound message to it. -/
def dispatchHead (c : Conn) (m : InMsg) : Conn :=
  match c.handlers with
  | [] => c
  | h :: hs => dispatch { c with handlers := hs } h m

/-- `queue.receive`: read and dispatch exactly one inbound message.  An
exhausted script models an unexpected EOF: `onNextMessageError` marks the
connection with a fatal I/O error and the read error is returned. -/
def receive (c : Conn) (script : List InMsg) : Conn × List InMsg × Option Err :=
  match script with
  | [] => (setError c .ioError true, [], some .ioError)
  | m :: rest => (dispatchHead c m, rest, none)

/-- `queue.receiveAll`: receive until the handler queue is empty. -/
def receiveAll (c : Conn) : (script : List InMsg) → Conn × List InMsg × Option Err
  | [] =>
      if c.handlers.isEmpty then (c, [], none)
      else (setError c .ioError true, [], some .ioError)
  | m :: rest =>
      if c.handlers.isEmpty then (c, m :: rest, none)
      else receiveAll (dispatchHead c m) rest

/-- `appendPullN` (the bolt5 method): in Streaming append an unqualified
PULL; in StreamingTx append an unqualified PULL when the stream's qid equals
`lastQid` and a qid-qualified one otherwise; in any other state append
nothing. -/
def appendPullN (c : Conn) (sid : Nat) : Conn :=
  match c.getStream sid with
  | none => c
  | some st =>
      if c.state = .streaming then
        appendMsg c (.pullN st.fetchSize) (.pull sid)
      else if c.state = .streamingTx then
        if st.qid = c.lastQid then
          appendMsg c (.pullN st.fetchSize) (.pull sid)
        else
          appendMsg c (.pullNQid st.fetchSize st.qid) (.pull sid)
      else c

/-- The append performed by one iteration of `discardStream` (bolt5.go lines
424-429): a qid-qualified DISCARD when in StreamingTx with `qid ≠ lastQid`,
otherwise the unqualified form. -/
def discardAppendStep (c : Conn) (sid : Nat) : Conn :=
  match c.getStream sid with
  | none => c
  | some st =>
      if c.state = .streamingTx ∧ st.qid ≠ c.lastQid then
        appendMsg c (.discardNQid st.fetchSize st.qid) (.discard sid)
      else
        appendMsg c (.discardN st.fetchSize) (.discard sid)

/-- The loop of `bufferStream`, with fuel bounding the number of iterations
(the Go loop is bounded by the server delivering a terminal response; any
fuel of at least `script.length + 1` reaches the same exit). -/
def bufferStreamLoop : Nat → Conn → Nat → List InMsg → Conn × List InMsg
  | 0, c, _, script => (c, script)
  | fuel + 1, c, sid, script =>
      let (c, script, e) := receiveAll c script
      if e ≠ none then (c, script)
      else if c.err ≠ none then (c, script)
      else
        match c.getStream sid with
        | none => (c, script)
        | some st =>
            if st.sum ≠ none ∨ st.err ≠ none then (c, script)
            else if st.endOfBatch then
              let c := c.updStream sid (fun s => { s with fetchSize := -1 })
              let c := appendPullN c sid
              let c := send c
              if c.err ≠ none then (c, script)
              else bufferStreamLoop fuel c sid script
            else bufferStreamLoop fuel c sid script

/-- `bufferStream`: pull all records of the current stream, if any, into its
buffer. -/
def bufferStream (c : Conn) (script : List InMsg) : Conn × List InMsg :=
  match c.streams.curr with
  | none => (c, script)
  | some sid => bufferStreamLoop (script.length + 1) c sid script

/-- `pauseStream`: receive the current stream's in-flight batch to its end
and, if the batch boundary was reached, unset it as current. -/
def pauseStream (c : Conn) (script : List InMsg) : Conn × List InMsg :=
  match c.streams.curr with
  | none => (c, script)
  | some sid =>
      let (c, script, e) := receiveAll c script
      if e ≠ none then (c, script)
      else if c.err ≠ none then (c, script)
      else
        match c.getStream sid with
        | none => (c, script)
        | some st =>
            if st.sum ≠ none ∨ st.err ≠ none then (c, script)
            else if st.endOfBatch then
              ({ c with streams := c.streams.pause }, script)
            else (c, script)

/-- `resumeStream`: mark the stream current, request a PULL and flush. -/
def resumeStream (c : Conn) (sid : Nat) : Conn :=
  let c := { c with streams := c.streams.resume sid }
  let c := appendPullN c sid
  send c

/-- The loop of `discardStream`; `discarded` records whether a DISCARD has
already been issued in this call. -/
def discardStreamLoop : Nat → Conn → Nat → Bool → List InMsg → Conn × List InMsg
  | 0, c, _, _, script => (c, script)
  | fuel + 1, c, sid, discarded, script =>
      let (c, script, e) := receiveAll c script
      if e ≠ none then (c, script)
      else if c.err ≠ none then (c, script)
      else
        match c.getStream sid with
        | none => (c, script)
        | some st =>
            if st.sum ≠ none ∨ st.err ≠ none then (c, script)
            else if st.endOfBatch ∧ discarded then
              let c := { c with streams := c.streams.remove sid }
              (checkStreams c, script)
            else
              let c := c.updStream sid (fun s => { s with fetchSize := -1 })
              let c := discardAppendStep c sid
              let c := send c
              if c.err ≠ none then (c, script)
              else discardStreamLoop fuel c sid true script

/-- `discardStream`: discard all remaining records of the current stream, if
streaming and there is one. -/
def discardStream (c : Conn) (script : List InMsg) : Conn × List InMsg :=
  if c.state ≠ .streaming ∧ c.state ≠ .streamingTx then (c, script)
  else
    match c.streams.curr with
    | none => (c, script)
    | some sid =>
        let c := c.updStream sid (fun s => { s with discarding := true })
        discardStreamLoop (script.length + 1) c sid false script

/-- `discardAllStreams`: discard the current stream, then reset the registry
and recompute the state. -/
def discardAllStreams (c : Conn) (script : List InMsg) : Conn × List InMsg :=
  if c.state ≠ .streaming ∧ c.state ≠ .streamingTx then (c, script)
  else
    let (c, script) := discardStream c script
    let c := { c with streams := Registry.empty }
    (checkStreams c, script)

/-- The private `run`: consume/pause any current stream, check the state,
create the stream, append RUN and the first PULL, flush, read exactly the RUN
response, and transition Ready→Streaming / Tx→StreamingTx.  (The RUN message
metadata — `tx.toMeta()` or nil — is not modelled; no claim mentions it.)
Returns the new stream's handle. -/
def runInternal (c : Conn) (cypher : String) (rawFetchSize : Int)
    (script : List InMsg) : Conn × List InMsg × Except Err Nat :=
  let step : Conn × List InMsg × Option Err :=
    if c.state = .streaming then
      let (c, script) := bufferStream c script
      if c.err ≠ none then (c, script, c.err) else (c, script, none)
    else if c.state = .streamingTx then
      let (c, script) := pauseStream c script
      if c.err ≠ none then (c, script, c.err) else (c, script, none)
    else (c, script, none)
  match step with
  | (c, script, some e) => (c, script, .error e)
  | (c, script, none) =>
    match assertState c [.tx, .ready, .streamingTx] with
    | some e => (c, script, .error e)
    | none =>
      let fetchSize := normalizeFetchSize rawFetchSize
      let sid := c.arena.length
      let c := { c with arena := c.arena ++ [Stream.fresh fetchSize] }
      let c := appendMsg c (.run cypher) (.run sid)
      let c := appendMsg c (.pullN fetchSize) (.pull sid)
      let c := send c
      if c.err ≠ none then (c, script, .error (c.err.getD .ioError))
      else
        -- only read the response for RUN
        let (c, script, e) := receive c script
        match e with
        | some e => (c, script, .error e)
        | none =>
          if c.err ≠ none then (c, script, .error (c.err.getD .ioError))
          else
            let c :=
              if c.state = .ready then { c with state := .streaming }
              else if c.state = .tx then { c with state := .streamingTx }
              else c
            (c, script, .ok sid)

/-- Modelled from the spec: `checkNotificationFiltering` (not under src/); the
spec states no failure condition for it, so it always passes. -/
def checkNotificationFiltering (_c : Conn) : Option Err := none

/-- `Connect`: gated on Unauthorized; appends HELLO (and LOGON when
minor > 0), flushes, receives all responses, then moves to Ready and resets
the stream registry. -/
def Connect (c : Conn) (minor : Nat) (script : List InMsg) :
    Conn × List InMsg × Option Err :=
  match assertState c [.unauthorized] with
  | some e => (c, script, some e)
  | none =>
    let c := { c with minor := minor }
    let c := appendMsg c .hello .hello
    let c := if minor > 0 then appendMsg c .logon .logon else c
    let c := send c
    if c.err ≠ none then (c, script, c.err)
    else
      let (c, script, e) := receiveAll c script
      match e with
      | some e => (c, script, some e)
      | none =>
        if c.err ≠ none then (c, script, c.err)
        else
          let c := { c with state := .ready, streams := Registry.empty }
          (c, script, none)

/-- `TxBegin`: buffer a pending auto-commit stream, reset the registry
(invalidating all outstanding stream handles), then gate on Ready, append
BEGIN, flush/receive, and move to Tx with a fresh handle (`newTxId` stands
for the wall-clock value used by the Go code). -/
def TxBegin (c : Conn) (newTxId : Nat) (script : List InMsg) :
    Conn × List InMsg × Except Err Nat :=
  let step : Conn × List InMsg × Option Err :=
    if c.state = .streaming then
      let (c, script) := bufferStream c script
      if c.err ≠ none then (c, script, c.err) else (c, script, none)
    else (c, script, none)
  match step with
  | (c, script, some e) => (c, script, .error e)
  | (c, script, none) =>
    -- makes all outstanding streams invalid
    let c := { c with streams := Registry.empty }
    match assertState c [.ready] with
    | some e => (c, script, .error e)
    | none =>
      match checkNotificationFiltering c with
      | some e => (c, script, .error e)
      | none =>
        let c := appendMsg c .begin .begin
        let c := send c
        if c.err ≠ none then (c, script, .error (c.err.getD .ioError))
        else
          let (c, script, e) := receiveAll c script
          match e with
          | some e => (c, script, .error e)
          | none =>
            if c.err ≠ none then (c, script, .error (c.err.getD .ioError))
            else
              let c := { c with state := .tx, txId := newTxId }
              (c, script, .ok newTxId)

/-- `TxCommit`: gate on the transaction handle, discard all streams to return
to plain Tx, gate on Tx, append COMMIT, flush/receive, and move to Ready. -/
def TxCommit (c : Conn) (txh : Nat) (script : List InMsg) :
    Conn × List InMsg × Option Err :=
  match assertTxHandle c.txId txh with
  | some e => (c, script, some e)
  | none =>
    let (c, script) := discardAllStreams c script
    if c.err ≠ none then (c, script, c.err)
    else
      match assertState c [.tx] with
      | some e => (c, script, some e)
      | none =>
        let c := appendMsg c .commit .commit
        let c := send c
        if c.err ≠ none then (c, script, c.err)
        else
          let (c, script, e) := receiveAll c script
          match e with
          | some e => (c, script, some e)
          | none =>
            if c.err ≠ none then (c, script, c.err)
            else ({ c with state := .ready }, script, none)

/-- `TxRollback`: same shape as `TxCommit` with a ROLLBACK message. -/
def TxRollback (c : Conn) (txh : Nat) (script : List InMsg) :
    Conn × List InMsg × Option Err :=
  match assertTxHandle c.txId txh with
  | some e => (c, script, some e)
  | none =>
    let (c, script) := discardAllStreams c script
    if c.err ≠ none then (c, script, c.err)
    else
      match assertState c [.tx] with
      | some e => (c, script, some e)
      | none =>
        let c := appendMsg c .rollback .rollback
        let c := send c
        if c.err ≠ none then (c, script, c.err)
        else
          let (c, script, e) := receiveAll c script
          match e with
          | some e => (c, script, some e)
          | none =>
            if c.err ≠ none then (c, script, c.err)
            else ({ c with state := .ready }, script, none)

/-- `Run` (auto-commit): gated on Streaming or Ready, then the shared `run`
path. -/
def Run (c : Conn) (cypher : String) (rawFetchSize : Int)
    (script : List InMsg) : Conn × List InMsg × Except Err Nat :=
  match assertState c [.streaming, .ready] with
  | some e => (c, script, .error e)
  | none =>
    match checkNotificationFiltering c with
    | some e => (c, script, .error e)
    | none => runInternal c cypher rawFetchSize script

/-- `RunTx`: gated on the transaction handle, then the shared `run` path. -/
def RunTx (c : Conn) (txh : Nat) (cypher : String) (rawFetchSize : Int)
    (script : List InMsg) : Conn × List InMsg × Except Err Nat :=
  match assertTxHandle c.txId txh with
  | some e => (c, script, .error e)
  | none => runInternal c cypher rawFetchSize script

/-- `Next`'s per-iteration buffered read (`stream.bufferedNext`): a buffered
record if any, else the terminal summary or error if set. -/
def bufferedNext (st : Stream) :
    Option (Stream × Option Rec × Option Summary × Option Err) :=
  match st.buffer with
  | r :: rest => some ({ st with buffer := rest }, some r, none, none)
  | [] =>
      match st.sum with
      | some s => some (st, none, some s, none)
      | none =>
          match st.err with
          | some e => some (st, none, none, some e)
          | none => none

/-- The loop of `Next`. -/
def nextLoop : Nat → Conn → Nat → List InMsg →
    Conn × List InMsg × (Option Rec × Option Summary × Option Err)
  | 0, c, _, script => (c, script, (none, none, none))
  | fuel + 1, c, sid, script =>
      match c.getStream sid with
      | none => (c, script, (none, none, some .invalidStream))
      | some st =>
          match bufferedNext st with
          | some (st', rec, sum, e) =>
              (c.updStream sid (fun _ => st'), script, (rec, sum, e))
          | none =>
              let c :=
                if st.endOfBatch then
                  let c := appendPullN c sid
                  let c := send c
                  c.updStream sid (fun s => { s with endOfBatch := false })
                else c
              if c.err ≠ none then (c, script, (none, none, c.err))
              else if c.handlers.isEmpty then
                (c, script, (none, none, some .moreResultsExpected))
              else
                let (c, script, e) := receive c script
                match e with
                | some e => (c, script, (none, none, some e))
                | none =>
                    if c.err ≠ none then (c, script, (none, none, c.err))
                    else nextLoop fuel c sid script

/-- `Next`: read one record from the stream, issuing further PULLs across
batch boundaries. -/
def Next (c : Conn) (sid : Nat) (script : List InMsg) :
    Conn × List InMsg × (Option Rec × Option Summary × Option Err) :=
  match c.getStream sid with
  | none => (c, script, (none, none, some .invalidStream))
  | some _ => nextLoop (script.length + 2) c sid script

/-- `Consume`: on a live safe stream while streaming, pause/resume to make it
current if needed, then discard it server-side and return its terminal
summary or error. -/
def Consume (c : Conn) (sid : Nat) (script : List InMsg) :
    Conn × List InMsg × (Option Summary × Option Err) :=
  match c.getStream sid with
  | none => (c, script, (none, some .invalidStream))
  | some st =>
      if st.sum ≠ none ∨ st.err ≠ none then (c, script, (st.sum, st.err))
      else if ¬ c.streams.isSafe sid then (c, script, (none, some .invalidStream))
      else
        match assertState c [.streaming, .streamingTx] with
        | some e => (c, script, (none, some e))
        | none =>
            let step : Conn × List InMsg × Option Err :=
              if c.streams.curr ≠ some sid then
                let (c, script) := pauseStream c script
                if c.err ≠ none then (c, script, c.err)
                else (resumeStream c sid, script, none)
              else (c, script, none)
            match step with
            | (c, script, some e) => (c, script, (none, some e))
            | (c, script, none) =>
                let (c, script) := discardStream c script
                match c.getStream sid with
                | none => (c, script, (none, some .invalidStream))
                | some st => (c, script, (st.sum, st.err))

/-- `Buffer`: like `Consume` but pulls the remaining records into the
stream's buffer; returns the stream's error if any. -/
def Buffer (c : Conn) (sid : Nat) (script : List InMsg) :
    Conn × List InMsg × Option Err :=
  match c.getStream sid with
  | none => (c, script, some .invalidStream)
  | some st =>
      if st.sum ≠ none ∨ st.err ≠ none then (c, script, st.err)
      else if ¬ c.streams.isSafe sid then (c, script, some .invalidStream)
      else
        match assertState c [.streaming, .streamingTx] with
        | some e => (c, script, some e)
        | none =>
            let step : Conn × List InMsg × Option Err :=
              if c.streams.curr ≠ some sid then
                let (c, script) := pauseStream c script
                if c.err ≠ none then (c, script, c.err)
                else (resumeStream c sid, script, none)
              else (c, script, none)
            match step with
            | (c, script, some e) => (c, script, some e)
            | (c, script, none) =>
                let (c, script) := bufferStream c script
                match c.getStream sid with
                | none => (c, script, some .invalidStream)
                | some st => (c, script, st.err)

/-- `Bookmark` accessor. -/
def Bookmark (c : Conn) : String := c.bookmark

/-- `IsAlive`: the connection is alive unless Dead. -/
def IsAlive (c : Conn) : Bool := c.state ≠ .dead

/-- `HasFailed`: the connection is in the recoverable Failed state. -/
def HasFailed (c : Conn) : Bool := c.state = .failed

/-- `ForceReset`: unless Dead, clear the pending error, drain outstanding
responses, append RESET, flush and read one response (whose handler forces
Ready or Dead). -/
def ForceReset (c : Conn) (script : List InMsg) : Conn × List InMsg :=
  if c.state = .dead then (c, script)
  else
    let c := { c with err := none }
    let (c, script, e) := receiveAll c script
    if c.err ≠ none ∨ e ≠ none then (c, script)
    else
      let c := appendMsg c .reset .reset
      let c := send c
      if c.err ≠ none then (c, script)
      else
        let (c, script, _) := receive c script
        (c, script)

/-- `Reset`: skip the wire round-trip when already Ready, otherwise
`ForceReset`; in all cases the deferred cleanup clears txId, bookmark,
databaseName, the sticky error, lastQid, and resets the stream registry. -/
def Reset (c : Conn) (script : List InMsg) : Conn × List InMsg :=
  let r := if c.state = .ready then (c, script) else ForceReset c script
  ({ r.1 with txId := 0, bookmark := "", databaseName := defaultDatabase,
              err := none, lastQid := -1, streams := Registry.empty }, r.2)

/-- `Close`: append GOODBYE and flush unless already Dead, then mark the
connection Dead (the socket close is outside the model). -/
def Close (c : Conn) : Conn :=
  let c :=
    if c.state ≠ .dead then send (appendGoodbye c)
    else c
  { c with state := .dead }

/-- `GetRoutingTable`: gated on Ready; appends ROUTE, flushes and receives.
(The routing-table payload itself is not modelled.) -/
def GetRoutingTable (c : Conn) (script : List InMsg) :
    Conn × List InMsg × Option Err :=
  match assertState c [.ready] with
  | some e => (c, script, some e)
  | none =>
    let c := appendMsg c .route .route
    let c := send c
    if c.err ≠ none then (c, script, c.err)
    else
      let (c, script, e) := receiveAll c script
      match e with
      | some e => (c, script, some e)
      | none =>
        if c.err ≠ none then (c, script, c.err)
        else (c, script, none)

/-! ## Concrete states used to evaluate the definitions -/

/-- A freshly authenticated idle connection. -/
def connBase : Conn :=
  { state := .ready, txId := 1, streams := Registry.empty, serverName := "srv",
    connId := "c1", serverVersion := "agent", bookmark := "", databaseName := "",
    err := none, minor := 4, lastQid := -1, arena := [], queueOut := [],
    sentMsgs := [], handlers := [] }

/-- An open auto-commit stream with the default fetch size. -/
def stream0 : Stream :=
  { qid := -1, keys := ["a"], fetchSize := 1000, buffer := [], endOfBatch := false,
    discarding := false, sum := none, err := none, tfirst := 0 }

/-! ## Helper lemmas -/

theorem listUpd_get? (l : List Stream) (i : Nat) (f : Stream → Stream) :
    (listUpd l i f).get? i = (l.get? i).map f := by
  induction l generalizing i with
  | nil => simp [listUpd]
  | cons s t ih =>
      cases i with
      | zero => simp [listUpd]
      | succ n => simpa [listUpd] using ih n

theorem getStream_updStream (c : Conn) (sid : Nat) (f : Stream → Stream) :
    (c.updStream sid f).getStream sid = (c.getStream sid).map f := by
  simp only [Conn.updStream, Conn.getStream]
  simpa using listUpd_get? c.arena sid f

theorem checkStreams_bookmark (c : Conn) : (checkStreams c).bookmark = c.bookmark := by
  unfold checkStreams
  split
  · split <;> rfl
  · rfl

theorem checkStreams_err (c : Conn) : (checkStreams c).err = c.err := by
  unfold checkStreams
  split
  · split <;> rfl
  · rfl

theorem checkStreams_state_of_not_streaming (c : Conn)
    (h1 : c.state ≠ .streaming) (h2 : c.state ≠ .streamingTx) :
    (checkStreams c).state = c.state := by
  unfold checkStreams
  split
  · split
    · simp_all
    · simp_all
    · rfl
  · rfl

theorem detachCurr_bookmark (c : Conn) (e : Err) :
    (detachCurr c e).bookmark = c.bookmark := by
  unfold detachCurr
  split <;> rfl

theorem detachCurr_err (c : Conn) (e : Err) : (detachCurr c e).err = c.err := by
  unfold detachCurr
  split <;> rfl

theorem detachCurr_state (c : Conn) (e : Err) : (detachCurr c e).state = c.state := by
  unfold detachCurr
  split <;> rfl

theorem setError_bookmark (c : Conn) (e : Err) (b : Bool) :
    (setError c e b).bookmark = c.bookmark := by
  simp only [setError]
  repeat' split
  all_goals simp [checkStreams_bookmark, detachCurr_bookmark]

theorem listUpd_getElem? (l : List Stream) (i : Nat) (f : Stream → Stream) :
    (listUpd l i f)[i]? = Option.map f l[i]? := by
  simpa using listUpd_get? l i f

/-- Where the bookmark can change under message dispatch: only a success,
with a non-empty bookmark, handled by the commit handler or by a pull or
discard handler seeing `has_more = false`. -/
theorem dispatch_bookmark_frame (c : Conn) (h : Handler) (m : InMsg) :
    (dispatch c h m).bookmark = c.bookmark ∨
    (∃ s, m = .success s ∧ s.bookmark ≠ "" ∧
      (dispatch c h m).bookmark = s.bookmark ∧
      (h = .commit ∨
        ∃ sid, (h = .pull sid ∨ h = .discard sid) ∧ s.hasMore = false)) := by
  cases h with
  | hello => cases m <;> (left; simp [dispatch, setError_bookmark])
  | logon => cases m <;> (left; simp [dispatch, setError_bookmark])
  | begin => cases m <;> (left; simp [dispatch, setError_bookmark])
  | rollback => cases m <;> (left; simp [dispatch, setError_bookmark])
  | route => cases m <;> (left; simp [dispatch, setError_bookmark])
  | reset => cases m <;> (left; simp [dispatch, setError_bookmark])
  | commit =>
      cases m with
      | success s =>
          by_cases hb : s.bookmark = ""
          · left; simp [dispatch, hb]
          · right
            exact ⟨s, rfl, hb, by simp [dispatch, hb], Or.inl rfl⟩
      | record vals => left; simp [dispatch]
      | failure cls code => left; simp [dispatch, setError_bookmark]
      | ignored => left; simp [dispatch]
      | unknown => left; simp [dispatch, setError_bookmark]
  | run sid =>
      cases m with
      | success s =>
          left
          by_cases hq : s.qid > -1 <;>
            simp [dispatch, Conn.updStream, Registry.attach, hq]
      | record vals => left; simp [dispatch]
      | failure cls code => left; simp [dispatch, setError_bookmark]
      | ignored => left; simp [dispatch]
      | unknown => left; simp [dispatch, setError_bookmark]
  | pull sid =>
      cases m with
      | success s =>
          rcases hg : c.getStream sid with _ | st
          · left; simp [dispatch, hg]
          · by_cases hm : s.hasMore
            · left
              by_cases hd : st.discarding <;>
                simp [dispatch, hg, hm, hd, Conn.updStream]
            · by_cases hb : s.bookmark = ""
              · left
                by_cases hd : st.discarding <;>
                  simp [dispatch, hg, hm, hd, hb, extractSummary,
                        checkStreams_bookmark, Conn.updStream]
              · right
                refine ⟨s, rfl, hb, ?_,
                  Or.inr ⟨sid, Or.inl rfl, by simpa using hm⟩⟩
                by_cases hd : st.discarding <;>
                  simp [dispatch, hg, hm, hd, hb, extractSummary,
                        checkStreams_bookmark, Conn.updStream]
      | record vals =>
          left
          rcases hg : c.getStream sid with _ | st
          · simp [dispatch, hg, pushFront]
          · by_cases hd : st.discarding <;>
              simp [dispatch, hg, hd, pushFront, Conn.updStream]
      | failure cls code =>
          left; simp [dispatch, setError_bookmark, Conn.updStream]
      | ignored => left; simp [dispatch, checkStreams_bookmark, Conn.updStream]
      | unknown => left; simp [dispatch, setError_bookmark]
  | discard sid =>
      cases m with
      | success s =>
          rcases hg : c.getStream sid with _ | st
          · left; simp [dispatch, hg]
          · by_cases hm : s.hasMore
            · left; simp [dispatch, hg, hm, Conn.updStream]
            · by_cases hb : s.bookmark = ""
              · left
                simp [dispatch, hg, hm, hb, extractSummary,
                      checkStreams_bookmark, Conn.updStream]
              · right
                refine ⟨s, rfl, hb, ?_,
                  Or.inr ⟨sid, Or.inr rfl, by simpa using hm⟩⟩
                simp [dispatch, hg, hm, hb, extractSummary,
                      checkStreams_bookmark, Conn.updStream]
      | record vals => left; simp [dispatch]
      | failure cls code =>
          left; simp [dispatch, setError_bookmark, Conn.updStream]
      | ignored => left; simp [dispatch, checkStreams_bookmark, Conn.updStream]
      | unknown => left; simp [dispatch, setError_bookmark]

/-! ## Claims -/

/-- C9: the fetch-size normalization used by `run` maps every negative raw
fetch size to -1, zero to the default 1000, and passes every positive value
through unchanged. -/
theorem claim_C9_fetch_size_normalization (n : Int) :
    (n < 0 → normalizeFetchSize n = -1) ∧
    (n = 0 → normalizeFetchSize n = 1000) ∧
    (0 < n → normalizeFetchSize n = n) := by
  refine ⟨fun h => ?_, fun h => ?_, fun h => ?_⟩
  · simp [normalizeFetchSize, h]
  · subst h
    simp [normalizeFetchSize, bolt5FetchSize]
  · have h1 : ¬ n < 0 := by omega
    have h2 : n ≠ 0 := by omega
    simp [normalizeFetchSize, h1, h2]

theorem claim_C9_witness :
    normalizeFetchSize (-7) = -1 ∧ normalizeFetchSize 0 = 1000 ∧
      normalizeFetchSize 42 = 42 :=
  ⟨(claim_C9_fetch_size_normalization (-7)).1 (by norm_num),
   (claim_C9_fetch_size_normalization 0).2.1 rfl,
   (claim_C9_fetch_size_normalization 42).2.2 (by norm_num)⟩

/-- A connection in Ready state with non-default txId, bookmark and lastQid;
shows that Reset's deferred cleanup runs even from Ready. -/
def connReadyDirty : Conn :=
  { connBase with bookmark := "bm", txId := 7, lastQid := 3 }

/-- C6 counterexample: Reset from Ready is not a no-op — the deferred cleanup
clears the bookmark (and txId, lastQid, ...) even when `state = Ready`. -/
theorem claim_C6_counterexample :
    connReadyDirty.state = .ready ∧ connReadyDirty.bookmark = "bm" ∧
      (Reset connReadyDirty []).1.bookmark = "" ∧
      (Reset connReadyDirty []).1.txId = 0 ∧
      (Reset connReadyDirty []).1.lastQid = -1 := by decide

/-- C6 (amended): from Ready, Reset performs no wire I/O (no message sent, no
message consumed) and leaves `state` unchanged, but its deferred cleanup
clears txId, bookmark, databaseName, err and lastQid and resets the stream
registry; with that proviso it is idempotent from Ready. -/
theorem claim_C6_reset_from_ready (c : Conn) (script script' : List InMsg)
    (h : c.state = .ready) :
    Reset c script =
      ({ c with txId := 0, bookmark := "", databaseName := defaultDatabase,
                err := none, lastQid := -1, streams := Registry.empty }, script) ∧
    Reset (Reset c script).1 script' = ((Reset c script).1, script') := by
  constructor
  · simp [Reset, h]
  · simp [Reset, h]

theorem claim_C6_witness :
    Reset connReadyDirty [] =
      ({ connReadyDirty with
          txId := 0, bookmark := "", databaseName := defaultDatabase,
          err := none, lastQid := -1, streams := Registry.empty }, []) ∧
    Reset (Reset connReadyDirty []).1 [] = ((Reset connReadyDirty []).1, []) :=
  claim_C6_reset_from_ready connReadyDirty [] [] rfl

/-- C10: calling TxBegin in a state other than Ready or Streaming with no
prior sticky error returns an invalid-state error, yet the stream registry
has been reset first, so every outstanding stream handle has been made
unsafe. -/
theorem claim_C10_txbegin_resets_registry (c : Conn) (newTx : Nat)
    (script : List InMsg) (herr : c.err = none)
    (h1 : c.state ≠ .ready) (h2 : c.state ≠ .streaming) :
    TxBegin c newTx script =
      ({ c with streams := Registry.empty }, script, .error .invalidState) ∧
    ∀ sid, (TxBegin c newTx script).1.streams.isSafe sid = false := by
  have hmain : TxBegin c newTx script =
      ({ c with streams := Registry.empty }, script, .error .invalidState) := by
    simp [TxBegin, assertState, herr, h1, h2]
  refine ⟨hmain, fun sid => ?_⟩
  rw [hmain]
  simp [Registry.isSafe, Registry.empty]

/-- A connection inside an open transaction with one live (paused) stream. -/
def connTxStream : Conn :=
  { connBase with
    state := .tx,
    txId := 1,
    arena := [stream0],
    streams := { curr := none, members := [0] } }

theorem claim_C10_witness :
    TxBegin connTxStream 5 [] =
      ({ connTxStream with streams := Registry.empty }, [], .error .invalidState) ∧
    ∀ sid, (TxBegin connTxStream 5 []).1.streams.isSafe sid = false :=
  claim_C10_txbegin_resets_registry connTxStream 5 [] rfl
    (by decide) (by decide)

/-- C2: a successful run from Ready sets the state to Streaming and from Tx
to StreamingTx; and the stream-count check turns Streaming into Ready and
StreamingTx into Tx exactly when the registry's stream count is zero,
changing nothing else. -/
theorem claim_C2_state_transitions (c : Conn) (cy : String) (n : Int)
    (s : Success) (rest : List InMsg)
    (herr : c.err = none) (hq : c.handlers = []) :
    ((c.state = .ready →
        (runInternal c cy n (.success s :: rest)).1.state = .streaming) ∧
     (c.state = .tx →
        (runInternal c cy n (.success s :: rest)).1.state = .streamingTx)) ∧
    (∀ c' : Conn,
      (c'.streams.num = 0 →
        (c'.state = .streaming → checkStreams c' = { c' with state := .ready }) ∧
        (c'.state = .streamingTx → checkStreams c' = { c' with state := .tx }) ∧
        (c'.state ≠ .streaming → c'.state ≠ .streamingTx →
          checkStreams c' = c')) ∧
      (c'.streams.num ≠ 0 → checkStreams c' = c')) := by
  constructor
  · constructor
    · intro hs
      by_cases hqd : s.qid > -1 <;>
        simp [runInternal, assertState, appendMsg, send, receive, dispatchHead,
              dispatch, Conn.updStream, Registry.attach, herr, hq, hs, hqd]
    · intro hs
      by_cases hqd : s.qid > -1 <;>
        simp [runInternal, assertState, appendMsg, send, receive, dispatchHead,
              dispatch, Conn.updStream, Registry.attach, herr, hq, hs, hqd]
  · intro c'
    constructor
    · intro hnum
      refine ⟨fun hs => ?_, fun hs => ?_, fun hs1 hs2 => ?_⟩
      · simp [checkStreams, hnum, hs]
      · simp [checkStreams, hnum, hs]
      · unfold checkStreams
        rw [hnum]
        rw [if_pos (by omega)]
        cases hst : c'.state <;> simp_all
    · intro hnum
      unfold checkStreams
      rw [if_neg (by omega)]

theorem claim_C2_witness :
    connBase.state = .ready ∧
    (runInternal connBase "RETURN 1" 0
        [.success { fields := ["x"], qid := -1, tfirst := 2, hasMore := false,
                    bookmark := "", server := "agent",
                    connectionId := "c1" }]).1.state = .streaming :=
  ⟨rfl,
    (claim_C2_state_transitions connBase "RETURN 1" 0
        { fields := ["x"], qid := -1, tfirst := 2, hasMore := false,
          bookmark := "", server := "agent", connectionId := "c1" }
        [] rfl rfl).1.1 rfl⟩

/-- The C4 counterexample state: an auto-commit stream (qid = -1) while
`lastQid` still holds the last in-transaction query id 0 (TxCommit does not
clear `lastQid`; only Reset does). -/
def connStreamingStaleQid : Conn :=
  { connBase with
    state := .streaming,
    lastQid := 0,
    arena := [stream0],
    streams := { curr := some 0, members := [0] } }

/-- C4 counterexample: in Streaming the appended PULL is always the
unqualified form, even though the target stream's qid (-1) differs from
`lastQid` (0) — refuting "explicit qid if and only if qid ≠ lastQid". -/
theorem claim_C4_counterexample :
    (connStreamingStaleQid.getStream 0).map Stream.qid = some (-1) ∧
    connStreamingStaleQid.lastQid = 0 ∧
    (appendPullN connStreamingStaleQid 0).queueOut = [WireMsg.pullN 1000] ∧
    WireMsg.carriesQid (WireMsg.pullN 1000) = false := by decide

/-- C4 (amended): in StreamingTx a PULL/DISCARD carries an explicit qid
exactly when the target stream's qid differs from `lastQid`; in Streaming
(auto-commit) the unqualified form is always used regardless of `lastQid`. -/
theorem claim_C4_qid_rule (c : Conn) (sid : Nat) (st : Stream)
    (hst : c.getStream sid = some st) :
    (c.state = .streamingTx →
       (appendPullN c sid).queueOut =
         c.queueOut ++ [if st.qid = c.lastQid then WireMsg.pullN st.fetchSize
                        else WireMsg.pullNQid st.fetchSize st.qid] ∧
       (discardAppendStep c sid).queueOut =
         c.queueOut ++ [if st.qid = c.lastQid then WireMsg.discardN st.fetchSize
                        else WireMsg.discardNQid st.fetchSize st.qid]) ∧
    (c.state = .streaming →
       (appendPullN c sid).queueOut = c.queueOut ++ [WireMsg.pullN st.fetchSize] ∧
       (discardAppendStep c sid).queueOut =
         c.queueOut ++ [WireMsg.discardN st.fetchSize]) := by
  constructor
  · intro hs
    by_cases hqd : st.qid = c.lastQid <;>
      simp [appendPullN, discardAppendStep, appendMsg, hst, hs, hqd]
  · intro hs
    simp [appendPullN, discardAppendStep, appendMsg, hst, hs]

/-- A StreamingTx connection with a paused stream whose qid 0 differs from
`lastQid` 1. -/
def connTxTwoStreams : Conn :=
  { connBase with
    state := .streamingTx,
    lastQid := 1,
    arena := [{ stream0 with qid := 0 }, { stream0 with qid := 1 }],
    streams := { curr := some 1, members := [1, 0] } }

theorem claim_C4_witness :
    (appendPullN connTxTwoStreams 0).queueOut =
      connTxTwoStreams.queueOut ++ [WireMsg.pullNQid 1000 0] ∧
    (discardAppendStep connTxTwoStreams 0).queueOut =
      connTxTwoStreams.queueOut ++ [WireMsg.discardNQid 1000 0] := by
  have h := (claim_C4_qid_rule connTxTwoStreams 0 { stream0 with qid := 0 }
    (by decide)).1 rfl
  simpa using h

/-- C3: a PULL success with `has_more = true` sets the stream's endOfBatch
flag, stores no summary and leaves the stream in the registry; with
`has_more = false` it stores the terminal summary, updates the bookmark
exactly when the summary carries a non-empty one, removes the stream from
the registry and recomputes the connection state from the stream count. -/
theorem claim_C3_pull_success_dispatch (c : Conn) (sid : Nat) (st : Stream)
    (s : Success) (hst : c.getStream sid = some st) :
    (s.hasMore = true →
       (dispatch c (.pull sid) (.success s)).getStream sid =
         some { (if st.discarding then { st with buffer := [] } else st) with
                  endOfBatch := true } ∧
       (dispatch c (.pull sid) (.success s)).streams = c.streams ∧
       (dispatch c (.pull sid) (.success s)).state = c.state ∧
       (dispatch c (.pull sid) (.success s)).bookmark = c.bookmark) ∧
    (s.hasMore = false →
       (dispatch c (.pull sid) (.success s)).getStream sid =
         some { (if st.discarding then { st with buffer := [] } else st) with
                  sum := some (extractSummary c s st) } ∧
       (dispatch c (.pull sid) (.success s)).bookmark =
         (if s.bookmark = "" then c.bookmark else s.bookmark) ∧
       (dispatch c (.pull sid) (.success s)).streams.members =
         c.streams.members.erase sid ∧
       (dispatch c (.pull sid) (.success s)).state =
         (if c.streams.members.erase sid = [] then
            (match c.state with
             | .streaming => BState.ready
             | .streamingTx => BState.tx
             | s0 => s0)
          else c.state)) := by
  have hst' : c.arena[sid]? = some st := by
    simpa [Conn.getStream] using hst
  constructor
  · intro hm
    by_cases hd : st.discarding <;>
      simp [dispatch, hst', hm, hd, Conn.updStream, Conn.getStream,
            listUpd_getElem?]
  · intro hm
    by_cases hd : st.discarding <;>
      by_cases hb : s.bookmark = "" <;>
        by_cases hz : c.streams.members.erase sid = [] <;>
          cases hcs : c.state <;>
            simp [dispatch, hst', hm, hd, hb, hz, hcs, Conn.updStream,
                  Conn.getStream, listUpd_getElem?, extractSummary,
                  checkStreams, Registry.remove, Registry.num,
                  List.length_eq_zero]

/-- A Streaming connection whose sole stream is current. -/
def connStreamingOne : Conn :=
  { connBase with
    state := .streaming,
    arena := [stream0],
    streams := { curr := some 0, members := [0] } }

/-- A terminal PULL success carrying a bookmark. -/
def pullEndSuccess : Success :=
  { fields := ["a"], qid := -1, tfirst := 0, hasMore := false,
    bookmark := "bm9", server := "agent", connectionId := "c1" }

theorem claim_C3_witness :
    (dispatch connStreamingOne (.pull 0) (.success pullEndSuccess)).bookmark
        = "bm9" ∧
    (dispatch connStreamingOne (.pull 0)
        (.success pullEndSuccess)).streams.members = [] ∧
    (dispatch connStreamingOne (.pull 0) (.success pullEndSuccess)).state
        = .ready := by
  have h := (claim_C3_pull_success_dispatch connStreamingOne 0 stream0
    pullEndSuccess (by decide)).2 rfl
  refine ⟨?_, ?_, ?_⟩
  · simpa using h.2.1
  · simpa using h.2.2.1
  · simpa using h.2.2.2

/-- A Failed connection carrying a sticky I/O error (txId 1). -/
def connFailedSticky : Conn :=
  { connBase with state := .failed, err := some .ioError }

/-- C1 counterexample: with a sticky error set, TxCommit called with a
mismatching transaction handle returns the invalid-transaction error, not
the sticky error — the tx-handle check precedes the sticky-error gate. -/
theorem claim_C1_counterexample :
    connFailedSticky.err = some Err.ioError ∧
    (TxCommit connFailedSticky 99 []).2.2 = some Err.invalidTransaction ∧
    Err.invalidTransaction ≠ Err.ioError := by decide

/-- C1 (amended): with a sticky error and the connection in a state reachable
with one (Failed or Dead), every gated operation whose preceding checks pass
(tx handle matching for TxCommit/TxRollback/RunTx; a live registered
non-terminal stream for Consume/Buffer) returns exactly the sticky error,
sends and appends no messages, and leaves state and err (indeed everything
except TxBegin's registry reset) unchanged. -/
theorem claim_C1_sticky_short_circuit (c : Conn) (e : Err)
    (minor newTx txh sid : Nat) (cy : String) (n : Int) (script : List InMsg)
    (st : Stream) (herr : c.err = some e)
    (hstate : c.state = .failed ∨ c.state = .dead) :
    Connect c minor script = (c, script, some e) ∧
    TxBegin c newTx script =
      ({ c with streams := Registry.empty }, script, .error e) ∧
    (txh = c.txId → TxCommit c txh script = (c, script, some e)) ∧
    (txh = c.txId → TxRollback c txh script = (c, script, some e)) ∧
    Run c cy n script = (c, script, .error e) ∧
    (txh = c.txId → RunTx c txh cy n script = (c, script, .error e)) ∧
    (c.getStream sid = some st → st.sum = none → st.err = none →
       c.streams.isSafe sid = true →
       Consume c sid script = (c, script, (none, some e))) ∧
    (c.getStream sid = some st → st.sum = none → st.err = none →
       c.streams.isSafe sid = true →
       Buffer c sid script = (c, script, some e)) ∧
    GetRoutingTable c script = (c, script, some e) := by
  have hs1 : c.state ≠ .streaming := by rcases hstate with h | h <;> simp [h]
  have hs2 : c.state ≠ .streamingTx := by rcases hstate with h | h <;> simp [h]
  have hs3 : c.state ≠ .ready := by rcases hstate with h | h <;> simp [h]
  have hs4 : c.state ≠ .unauthorized := by rcases hstate with h | h <;> simp [h]
  have hs5 : c.state ≠ .tx := by rcases hstate with h | h <;> simp [h]
  refine ⟨?_, ?_, fun htx => ?_, fun htx => ?_, ?_, fun htx => ?_,
          fun hst hsum hserr hsafe => ?_, fun hst hsum hserr hsafe => ?_, ?_⟩
  · simp [Connect, assertState, herr]
  · simp [TxBegin, assertState, herr, hs1]
  · simp [TxCommit, assertTxHandle, discardAllStreams, assertState, herr,
          htx, hs1, hs2]
  · simp [TxRollback, assertTxHandle, discardAllStreams, assertState, herr,
          htx, hs1, hs2]
  · simp [Run, assertState, checkNotificationFiltering, herr]
  · simp [RunTx, runInternal, assertTxHandle, assertState, herr, htx,
          hs1, hs2]
  · simp [Consume, assertState, herr, hst, hsum, hserr, hsafe]
  · simp [Buffer, assertState, herr, hst, hsum, hserr, hsafe]
  · simp [GetRoutingTable, assertState, herr]

/-- A Failed sticky connection that still has a live paused stream in the
registry (possible in a transaction where the failure detached only the
current stream). -/
def connFailedStickyStream : Conn :=
  { connBase with
    state := .failed,
    err := some .ioError,
    arena := [stream0],
    streams := { curr := none, members := [0] } }

theorem claim_C1_witness :
    Connect connFailedStickyStream 4 [] =
      (connFailedStickyStream, [], some Err.ioError) ∧
    TxCommit connFailedStickyStream 1 [] =
      (connFailedStickyStream, [], some Err.ioError) ∧
    Consume connFailedStickyStream 0 [] =
      (connFailedStickyStream, [], (none, some Err.ioError)) := by
  have h := claim_C1_sticky_short_circuit connFailedStickyStream Err.ioError
    4 5 1 0 "Q" 0 [] stream0 rfl (Or.inl rfl)
  exact ⟨h.1, h.2.2.1 (by decide), h.2.2.2.2.2.2.1 (by decide) rfl rfl (by decide)⟩

/-- A Failed connection whose stored error is a recoverable ClientError. -/
def connFailedClientErr : Conn :=
  { connBase with
    state := .failed,
    err := some (.neo4jError "ClientError" "x") }

/-- C7 counterexample: a later fatal (but non-context) error moves the state
to Dead yet does not overwrite the stored recoverable error, refuting "the
fatal error overwrites the stored recoverable error". -/
theorem claim_C7_counterexample :
    connFailedClientErr.err = some (Err.neo4jError "ClientError" "x") ∧
    isFatalError Err.ioError = true ∧
    (setError connFailedClientErr Err.ioError true).state = .dead ∧
    (setError connFailedClientErr Err.ioError true).err =
      some (Err.neo4jError "ClientError" "x") := by decide

/-- C7 (amended): when `err` is already set (state Failed or Dead), a later
recoverable error changes neither err nor state, and a later fatal error
sets the state to Dead but leaves the stored error unchanged — unless the
fatal error is a terminated-context error, in which case the stored error is
replaced by its wrapped form. -/
theorem claim_C7_sticky_error_semantics (c : Conn) (e0 e : Err)
    (herr : c.err = some e0) (hstate : c.state = .failed ∨ c.state = .dead) :
    ((setError c e false).err = some e0 ∧
     (setError c e false).state = c.state) ∧
    ((setError c e true).state = .dead ∧
     (setError c e true).err =
       (match handleTerminatedContextError e with
        | some ctxErr => some ctxErr
        | none => some e0)) := by
  have hs1 : c.state ≠ .streaming := by rcases hstate with h | h <;> simp [h]
  have hs2 : c.state ≠ .streamingTx := by rcases hstate with h | h <;> simp [h]
  refine ⟨⟨?_, ?_⟩, ?_, ?_⟩ <;>
    cases hh : handleTerminatedContextError e <;>
      by_cases hc : c.streams.curr = none <;>
        simp [setError, herr, hh, hc, checkStreams_err, detachCurr_err,
              checkStreams_state_of_not_streaming, detachCurr_state, hs1, hs2]

theorem claim_C7_witness :
    ((setError connFailedClientErr Err.ioError false).err =
        some (Err.neo4jError "ClientError" "x") ∧
     (setError connFailedClientErr Err.ioError false).state = .failed) ∧
    ((setError connFailedClientErr Err.ctxCanceled true).state = .dead ∧
     (setError connFailedClientErr Err.ctxCanceled true).err =
        some Err.terminatedContext) := by
  have h1 := claim_C7_sticky_error_semantics connFailedClientErr
    (Err.neo4jError "ClientError" "x") Err.ioError rfl (Or.inl rfl)
  have h2 := claim_C7_sticky_error_semantics connFailedClientErr
    (Err.neo4jError "ClientError" "x") Err.ctxCanceled rfl (Or.inl rfl)
  exact ⟨⟨h1.1.1, h1.1.2⟩, h2.2.1, h2.2.2⟩

/-- C8: a state-assertion mismatch (with no prior sticky error) or a
transaction-handle mismatch returns its error to the caller without storing
it: each operation leaves the connection — in particular `state` and `err` —
exactly as it was. -/
theorem claim_C8_assert_failures_not_sticky (c : Conn)
    (txh minor newTx sid : Nat) (cy : String) (n : Int)
    (script : List InMsg) (st : Stream) :
    (txh ≠ c.txId →
       TxCommit c txh script = (c, script, some .invalidTransaction) ∧
       TxRollback c txh script = (c, script, some .invalidTransaction) ∧
       RunTx c txh cy n script = (c, script, .error .invalidTransaction)) ∧
    (c.err = none → c.state ≠ .unauthorized →
       Connect c minor script = (c, script, some .invalidState)) ∧
    (c.err = none → c.state ≠ .streaming → c.state ≠ .ready →
       Run c cy n script = (c, script, .error .invalidState)) ∧
    (c.err = none → c.state ≠ .ready →
       GetRoutingTable c script = (c, script, some .invalidState)) ∧
    (c.err = none → c.state ≠ .ready → c.state ≠ .streaming →
       (TxBegin c newTx script).1.state = c.state ∧
       (TxBegin c newTx script).1.err = c.err ∧
       (TxBegin c newTx script).2.2 = .error (.invalidState)) ∧
    (c.err = none → c.state ≠ .tx → c.state ≠ .streaming →
       c.state ≠ .streamingTx → txh = c.txId →
       TxCommit c txh script = (c, script, some .invalidState)) ∧
    (c.err = none → c.state ≠ .streaming → c.state ≠ .streamingTx →
       c.getStream sid = some st → st.sum = none → st.err = none →
       c.streams.isSafe sid = true →
       Consume c sid script = (c, script, (none, some .invalidState))) := by
  refine ⟨fun htx => ?_, fun herr hs => ?_, fun herr hs1 hs2 => ?_,
          fun herr hs => ?_, fun herr hs1 hs2 => ?_,
          fun herr hs1 hs2 hs3 htx => ?_,
          fun herr hs1 hs2 hst hsum hserr hsafe => ?_⟩
  · have htx' : c.txId ≠ txh := fun h => htx h.symm
    exact ⟨by simp [TxCommit, assertTxHandle, htx'],
           by simp [TxRollback, assertTxHandle, htx'],
           by simp [RunTx, assertTxHandle, htx']⟩
  · simp [Connect, assertState, herr, hs]
  · simp [Run, assertState, herr, hs1, hs2]
  · simp [GetRoutingTable, assertState, herr, hs]
  · simp [TxBegin, assertState, herr, hs1, hs2]
  · simp [TxCommit, assertTxHandle, discardAllStreams, assertState, herr,
          htx, hs1, hs2, hs3]
  · simp [Consume, assertState, herr, hst, hsum, hserr, hsafe, hs1, hs2]

/-- A plain Tx-state connection with a live paused stream (txId 1). -/
def connTxPlain : Conn :=
  { connBase with
    state := .tx,
    arena := [stream0],
    streams := { curr := none, members := [0] } }

theorem claim_C8_witness :
    TxCommit connTxPlain 99 [] =
      (connTxPlain, [], some Err.invalidTransaction) ∧
    Run connTxPlain "Q" 0 [] = (connTxPlain, [], .error Err.invalidState) ∧
    GetRoutingTable connTxPlain [] =
      (connTxPlain, [], some Err.invalidState) ∧
    Consume connTxPlain 0 [] =
      (connTxPlain, [], (none, some Err.invalidState)) := by
  have h := claim_C8_assert_failures_not_sticky connTxPlain
    99 4 5 0 "Q" 0 [] stream0
  exact ⟨(h.1 (by decide)).1,
         h.2.2.1 rfl (by decide) (by decide),
         h.2.2.2.1 rfl (by decide),
         h.2.2.2.2.2.2 rfl (by decide) (by decide) (by decide) rfl rfl
           (by decide)⟩

/-- A Ready connection holding a bookmark. -/
def connBookmarked : Conn := { connBase with bookmark := "b5" }

/-- C5 counterexample: Reset changes the bookmark (it clears it to the empty
string) although it is neither a commit success nor a terminal pull/discard
success — refuting "no other operation changes bookmark". -/
theorem claim_C5_counterexample :
    connBookmarked.bookmark = "b5" ∧
    (Reset connBookmarked []).1.bookmark = "" := by decide

/-- C5 (amended): the bookmark is modified by message dispatch only through a
commit success or a terminal (`has_more = false`) pull/discard success whose
metadata carries a non-empty bookmark — which then set it to that value —
and additionally by Reset, whose deferred cleanup unconditionally clears it
to the empty string. -/
theorem claim_C5_bookmark_updates (c : Conn) (h : Handler) (m : InMsg)
    (script : List InMsg) (s : Success) (sid : Nat) (st : Stream) :
    ((dispatch c h m).bookmark = c.bookmark ∨
      (∃ s', m = .success s' ∧ s'.bookmark ≠ "" ∧
        (dispatch c h m).bookmark = s'.bookmark ∧
        (h = .commit ∨
          ∃ sid', (h = .pull sid' ∨ h = .discard sid') ∧ s'.hasMore = false))) ∧
    (Reset c script).1.bookmark = "" ∧
    (s.bookmark ≠ "" →
       (dispatch c .commit (.success s)).bookmark = s.bookmark) ∧
    (s.bookmark ≠ "" → s.hasMore = false → c.getStream sid = some st →
       (dispatch c (.pull sid) (.success s)).bookmark = s.bookmark ∧
       (dispatch c (.discard sid) (.success s)).bookmark = s.bookmark) := by
  refine ⟨dispatch_bookmark_frame c h m, rfl, fun hb => ?_,
          fun hb hm hst => ⟨?_, ?_⟩⟩
  · simp [dispatch, hb]
  · by_cases hd : st.discarding <;>
      simp [dispatch, hst, hm, hb, hd, extractSummary,
            checkStreams_bookmark, Conn.updStream]
  · simp [dispatch, hst, hm, hb, extractSummary,
          checkStreams_bookmark, Conn.updStream]

theorem claim_C5_witness :
    (dispatch connBookmarked .commit (.success pullEndSuccess)).bookmark
        = "bm9" ∧
    (dispatch connStreamingOne (.pull 0)
        (.success pullEndSuccess)).bookmark = "bm9" ∧
    (dispatch connStreamingOne (.discard 0)
        (.success pullEndSuccess)).bookmark = "bm9" ∧
    (Reset connBookmarked []).1.bookmark = "" := by
  have h1 := claim_C5_bookmark_updates connBookmarked .commit
    (.success pullEndSuccess) [] pullEndSuccess 0 stream0
  have h2 := claim_C5_bookmark_updates connStreamingOne (.pull 0)
    (.success pullEndSuccess) [] pullEndSuccess 0 stream0
  exact ⟨h1.2.2.1 (by decide),
         (h2.2.2.2 (by decide) rfl (by decide)).1,
         (h2.2.2.2 (by decide) rfl (by decide)).2,
         h1.2.1⟩

end Bolt5
